import Mathlib

/-!
Shallow embedding of `src/app.py`, a Streamlit/folium map application.
The embedded parts are the ones the specification claims are about:

* the GeoJSON-to-marker projection (`add_geojson_markers`, lines 55-81,
  and the no-icon fallback marker loop, lines 113-129),
* the per-layer loading loop with `load_geojson` (lines 47-53, 104-129)
  and the zone circle (lines 132-140),
* the `st.session_state` handling: the reset button (lines 37-38), the
  session initialisation (lines 41-42) and the click handler (lines 161-164).

Python values arriving from `json.loads` are modelled by the inductive
type `Json` (numbers as rationals, `None` as `Json.null`).  Python
operations that can raise on structurally unexpected values are modelled
in an exception monad `Except PyErr`.
-/

/-- JSON values as produced by Python's `json.loads`; numbers are modelled
as rationals, Python `None` is `Json.null`. -/
inductive Json : Type where
  | null : Json
  | bool : Bool → Json
  | num : ℚ → Json
  | str : String → Json
  | arr : List Json → Json
  | obj : List (String × Json) → Json

/-- Python truthiness (`bool(x)`) of a JSON value: `None`, `False`, `0`,
`""`, `[]` and `{}` are falsy, everything else is truthy. -/
def truthy : Json → Bool
  | .null => false
  | .bool b => b
  | .num q => decide (q ≠ 0)
  | .str s => decide (s ≠ "")
  | .arr xs => !xs.isEmpty
  | .obj kvs => !kvs.isEmpty

/-- Uncaught Python exceptions that the marker-extraction code can raise on
structurally unexpected values. -/
inductive PyErr : Type where
  | attributeError : PyErr
  | typeError : PyErr
  | indexError : PyErr
  | keyError : PyErr
deriving DecidableEq

/-- Python `o.get(k, default)` on a JSON value: only dictionaries have a
`.get` method; on anything else an `AttributeError` is raised. -/
def pyGetD (o : Json) (k : String) (dflt : Json) : Except PyErr Json :=
  match o with
  | .obj kvs => .ok ((kvs.lookup k).getD dflt)
  | _ => .error .attributeError

/-- Python `o.get(k)` (default `None`). -/
def pyGet (o : Json) (k : String) : Except PyErr Json :=
  match o with
  | .obj kvs => .ok ((kvs.lookup k).getD Json.null)
  | _ => .error .attributeError

/-- Python `len(o)`: defined for lists, strings and dictionaries; a
`TypeError` otherwise. -/
def pyLen (o : Json) : Except PyErr ℕ :=
  match o with
  | .arr xs => .ok xs.length
  | .str s => .ok s.length
  | .obj kvs => .ok kvs.length
  | _ => .error .typeError

/-- Python `o[i]` for a natural-number index `i`: list indexing, string
indexing (yielding a one-character string), a `KeyError` for a
string-keyed dictionary, a `TypeError` otherwise. -/
def pyIndex (o : Json) (i : ℕ) : Except PyErr Json :=
  match o with
  | .arr xs =>
    match xs[i]? with
    | some x => .ok x
    | none => .error .indexError
  | .str s =>
    match s.toList[i]? with
    | some c => .ok (.str c.toString)
    | none => .error .indexError
  | .obj _ => .error .keyError
  | _ => .error .typeError

/-- Python `for x in o`: lists iterate their elements, strings their
characters, dictionaries their keys; `None`, booleans and numbers are not
iterable (`TypeError`). -/
def pyIter (o : Json) : Except PyErr (List Json) :=
  match o with
  | .arr xs => .ok xs
  | .str s => .ok (s.toList.map (fun c => .str c.toString))
  | .obj kvs => .ok (kvs.map (fun p => Json.str p.1))
  | _ => .error .typeError

/-- Python `v == "Point"`: only the exact string compares equal. -/
def typeIsPoint : Json → Bool
  | .str s => decide (s = "Point")
  | _ => false

/-- A folium marker as built by the source: its location pair (latitude,
longitude) and the label interpolated into its popup. The values are kept
as the raw Python values the source passes on. -/
structure Marker where
  lat : Json
  lon : Json
  label : Json

/-- The label expression `props.get("name") or props.get("titel") or props.get("title") or ""`
(src/app.py line 72), with Python's short-circuiting `or`. -/
def pickLabel (props : Json) : Except PyErr Json :=
  match pyGet props "name" with
  | .error e => .error e
  | .ok nm =>
    if truthy nm then .ok nm
    else
      match pyGet props "titel" with
      | .error e => .error e
      | .ok t1 =>
        if truthy t1 then .ok t1
        else
          match pyGet props "title" with
          | .error e => .error e
          | .ok t2 => .ok (if truthy t2 then t2 else Json.str "")

/-- The label expression `props.get("name") or ""` (src/app.py line 124, the no-icon fallback
loop's label). -/
def pickLabelFB (props : Json) : Except PyErr Json :=
  match pyGet props "name" with
  | .error e => .error e
  | .ok nm => .ok (if truthy nm then nm else Json.str "")

/-- One iteration of the marker loop of `add_geojson_markers`
(src/app.py lines 59-79): returns `some` marker, `none` when the feature
is skipped by a `continue`, or the Python exception it raises. -/
def processFeature (feat : Json) : Except PyErr (Option Marker) :=
  match pyGetD feat "geometry" (Json.obj []) with
  | .error e => .error e
  | .ok geom =>
    match pyGetD feat "properties" (Json.obj []) with
    | .error e => .error e
    | .ok propsRaw =>
      let props := if truthy propsRaw then propsRaw else Json.obj []
      match pyGet geom "type" with
      | .error e => .error e
      | .ok ty =>
        if typeIsPoint ty then
          match pyGetD geom "coordinates" (Json.arr []) with
          | .error e => .error e
          | .ok coords =>
            if truthy coords then
              match pyLen coords with
              | .error e => .error e
              | .ok n =>
                if n < 2 then .ok none
                else
                  match pyIndex coords 0 with
                  | .error e => .error e
                  | .ok lon =>
                    match pyIndex coords 1 with
                    | .error e => .error e
                    | .ok lat =>
                      match pickLabel props with
                      | .error e => .error e
                      | .ok lbl => .ok (some ⟨lat, lon, lbl⟩)
            else .ok none
        else .ok none

/-- One iteration of the no-icon fallback loop (src/app.py lines 115-128);
identical to `processFeature` except for the label expression. -/
def processFeatureFB (feat : Json) : Except PyErr (Option Marker) :=
  match pyGetD feat "geometry" (Json.obj []) with
  | .error e => .error e
  | .ok geom =>
    match pyGetD feat "properties" (Json.obj []) with
    | .error e => .error e
    | .ok propsRaw =>
      let props := if truthy propsRaw then propsRaw else Json.obj []
      match pyGet geom "type" with
      | .error e => .error e
      | .ok ty =>
        if typeIsPoint ty then
          match pyGetD geom "coordinates" (Json.arr []) with
          | .error e => .error e
          | .ok coords =>
            if truthy coords then
              match pyLen coords with
              | .error e => .error e
              | .ok n =>
                if n < 2 then .ok none
                else
                  match pyIndex coords 0 with
                  | .error e => .error e
                  | .ok lon =>
                    match pyIndex coords 1 with
                    | .error e => .error e
                    | .ok lat =>
                      match pickLabelFB props with
                      | .error e => .error e
                      | .ok lbl => .ok (some ⟨lat, lon, lbl⟩)
            else .ok none
        else .ok none

/-- The `for feat in features` loop of `add_geojson_markers`: markers are
collected in source order; a raised exception aborts the whole loop. -/
def processFeats : List Json → Except PyErr (List Marker)
  | [] => .ok []
  | f :: fs =>
    match processFeature f with
    | .error e => .error e
    | .ok mo =>
      match processFeats fs with
      | .error e => .error e
      | .ok rest => .ok (match mo with | some m => m :: rest | none => rest)

/-- The `for feat in geo.get("features", [])` loop of the no-icon fallback
branch. -/
def processFeatsFB : List Json → Except PyErr (List Marker)
  | [] => .ok []
  | f :: fs =>
    match processFeatureFB f with
    | .error e => .error e
    | .ok mo =>
      match processFeatsFB fs with
      | .error e => .error e
      | .ok rest => .ok (match mo with | some m => m :: rest | none => rest)

/-- Embedding of `add_geojson_markers` (src/app.py lines 55-81), reduced to the markers
it adds to the layer: `features = geojson_obj.get("features", [])`, then
the per-feature loop. -/
def add_geojson_markers (geojson_obj : Json) : Except PyErr (List Marker) :=
  match pyGetD geojson_obj "features" (Json.arr []) with
  | .error e => .error e
  | .ok fv =>
    match pyIter fv with
    | .error e => .error e
    | .ok feats => processFeats feats

/-- The no-icon fallback marker loop (src/app.py lines 114-129), reduced to
the markers it adds to the layer. -/
def fallback_markers (geojson_obj : Json) : Except PyErr (List Marker) :=
  match pyGetD geojson_obj "features" (Json.arr []) with
  | .error e => .error e
  | .ok fv =>
    match pyIter fv with
    | .error e => .error e
    | .ok feats => processFeatsFB feats

/-- The per-layer load errors of `load_geojson` (src/app.py lines 48-53):
"Datei nicht gefunden" and "Fehler beim Laden"; the parse-error message
text is kept abstract. -/
inductive LoadErr : Type where
  | notFound : LoadErr
  | parseError : String → LoadErr
deriving DecidableEq

/-- The state of one configured data source as `load_geojson` observes it:
the path may be missing (`path.exists()` false), or present with a given
outcome of `json.loads(path.read_text())`. -/
inductive Source : Type where
  | missing : Source
  | present : Except String Json → Source

/-- Embedding of `load_geojson` (src/app.py lines 47-53): returns the Python pair
`(geo, err)`; Python `None` is `Json.null`.  A missing path yields the
not-found message; any exception from reading or parsing is caught and
turned into the load-failure message; otherwise the parsed document is
returned with no error. -/
def load_geojson : Source → Json × Option LoadErr
  | .missing => (Json.null, some .notFound)
  | .present (.ok j) => (j, none)
  | .present (.error e) => (Json.null, some (.parseError e))

/-- The layer-loading loop (src/app.py lines 104-129): per layer,
`load_geojson`; on error a warning is recorded and the layer skipped
(`continue`); otherwise the marker extraction runs — via
`add_geojson_markers` when the lighthouse icon loaded, via the inline
fallback loop when it did not — and an uncaught exception from it aborts
the whole script. -/
def buildLayers (icon : Bool) :
    List (String × Source) →
    Except PyErr (List (String × LoadErr) × List (String × List Marker))
  | [] => .ok ([], [])
  | (layer_name, src) :: rest =>
    match load_geojson src with
    | (geo, err) =>
      match err with
      | some e =>
        match buildLayers icon rest with
        | .error pe => .error pe
        | .ok (ws, ls) => .ok ((layer_name, e) :: ws, ls)
      | none =>
        match (if icon then add_geojson_markers geo else fallback_markers geo) with
        | .error pe => .error pe
        | .ok ms =>
          match buildLayers icon rest with
          | .error pe => .error pe
          | .ok (ws, ls) => .ok (ws, (layer_name, ms) :: ls)

/-- The zone circle (src/app.py lines 132-140): drawn at the session
center with radius `radius_km * 1000` metres. -/
structure ZoneCircle where
  center : ℚ × ℚ
  radius_m : ℤ
deriving DecidableEq

/-- The view produced by one successful render pass: the load warnings,
the per-layer marker lists in configuration order, and the zone circle. -/
structure Rendered where
  warnings : List (String × LoadErr)
  layers : List (String × List Marker)
  circle : ZoneCircle

/-- One render pass over the configured layers (src/app.py lines 104-140):
the layer loop followed by the zone circle; an uncaught exception in the
loop aborts the pass before the circle is drawn. -/
def renderPass (icon : Bool) (layerSpecs : List (String × Source))
    (center : ℚ × ℚ) (radius_km : ℤ) : Except PyErr Rendered :=
  match buildLayers icon layerSpecs with
  | .error pe => .error pe
  | .ok (ws, ls) => .ok ⟨ws, ls, ⟨center, radius_km * 1000⟩⟩

/-- The constant `DEFAULT_CENTER` (src/app.py line 14). -/
def DEFAULT_CENTER : ℚ × ℚ := (52.52, 13.405)

/-- The store `st.session_state`: a string-keyed store.  The app only ever stores
coordinate pairs in it, and only under the key `"center"`. -/
def Session : Type := String → Option (ℚ × ℚ)

/-- The session at session start: streamlit begins with no keys set. -/
def emptySession : Session := fun _ => none

/-- The reset-button handler (src/app.py lines 37-38):
`st.session_state["center"] = DEFAULT_CENTER`. -/
def resetCenter (s : Session) : Session :=
  Function.update s "center" (some DEFAULT_CENTER)

/-- The session initialisation (src/app.py lines 41-42):
`if "center" not in st.session_state: st.session_state["center"] = DEFAULT_CENTER`. -/
def ensureCenter (s : Session) : Session :=
  if (s "center").isSome then s else Function.update s "center" (some DEFAULT_CENTER)

/-- The click handler (src/app.py lines 161-164): when `st_folium`
reports a `last_clicked` value, the session center is set to it.  The
boolean records whether the updating branch executed (i.e. whether the
assignment at line 164 ran); when no click is reported nothing happens. -/
def clickHandler (s : Session) (click : Option (ℚ × ℚ)) : Session × Bool :=
  match click with
  | none => (s, false)
  | some c => (Function.update s "center" (some c), true)

/-- The inputs one render pass receives from the streamlit widgets:
whether the reset button was pressed, the slider value, and the
`last_clicked` value reported by the map widget (if any). -/
structure PassInput where
  resetClicked : Bool
  radius_km : ℤ
  click : Option (ℚ × ℚ)

/-- The session-relevant outcome of a pass: the session it leaves behind
and the zone circle it drew. -/
structure PassOutput where
  session : Session
  circle : ZoneCircle

/-- One full script run (src/app.py top to bottom) restricted to the
session state and the zone circle: reset button (lines 37-38), session
initialisation (lines 41-42), zone circle from the current center and the
slider (lines 132-140), then the click handler (lines 161-164). -/
def runPass (s : Session) (p : PassInput) : PassOutput :=
  let s1 := if p.resetClicked then resetCenter s else s
  let s2 := ensureCenter s1
  let circ : ZoneCircle := ⟨(s2 "center").getD DEFAULT_CENTER, p.radius_km * 1000⟩
  let s3 := (clickHandler s2 p.click).1
  ⟨s3, circ⟩

/-- The sessions reachable by running the script any number of times from
a fresh streamlit session. -/
inductive Reachable : Session → Prop where
  | init : Reachable emptySession
  | step (s : Session) (p : PassInput) : Reachable s → Reachable (runPass s p).session

/-- Rounding to 6 fractional digits.  The spec prescribes this as the
click de-duplication key; the source performs no rounding at all, so this
definition exists only to state the spec's claims. -/
def specRound6 (q : ℚ) : ℚ := (round (q * 1000000) : ℚ) / 1000000

/-- Spec-side `a or b` on an optional string: the first present non-empty
string wins, otherwise the fallback. -/
def pickStr (o : Option String) (dflt : String) : String :=
  match o with
  | some s => if s = "" then dflt else s
  | none => dflt

/-- Spec-side label policy as the claims state it: the first present
non-empty value among `name`, `titel`, `title`, in that order, else `""`. -/
def specLabel (nm t1 t2 : Option String) : String :=
  pickStr nm (pickStr t1 (pickStr t2 ""))

/-- The effective properties dictionary of a feature object:
`feat.get("properties", {}) or {}` (src/app.py line 61). -/
def effProps (fkvs : List (String × Json)) : Json :=
  let p := (fkvs.lookup "properties").getD (Json.obj [])
  if truthy p then p else Json.obj []

/-- Whether a JSON value is a dictionary. -/
def isObjB : Json → Bool
  | .obj _ => true
  | _ => false

/-- Exception-free form of the label chain of src/app.py line 72, defined
on dictionaries (and `""` elsewhere); used to state what `processFeature`
computes on well-formed features. -/
def totalLabel (props : Json) : Json :=
  match props with
  | .obj kvs =>
    let nm := (kvs.lookup "name").getD Json.null
    if truthy nm then nm
    else
      let t1 := (kvs.lookup "titel").getD Json.null
      if truthy t1 then t1
      else
        let t2 := (kvs.lookup "title").getD Json.null
        if truthy t2 then t2 else Json.str ""
  | _ => Json.str ""

/-- The body of `extractPt` on a feature that is a dictionary with entry list `fkvs`. -/
def extractPtObj (fkvs : List (String × Json)) : Option Marker :=
  match (fkvs.lookup "geometry").getD (Json.obj []) with
  | .obj gkvs =>
    if typeIsPoint ((gkvs.lookup "type").getD Json.null) then
      match (gkvs.lookup "coordinates").getD (Json.arr []) with
      | .arr (x :: y :: _) => some ⟨y, x, totalLabel (effProps fkvs)⟩
      | _ => none
    else none
  | _ => none

/-- Total (exception-free) extraction of the marker a well-formed feature
yields under the main (icon) path: `some` marker for a Point feature with
a coordinate list of length at least two, `none` for a skipped feature.
Used to state the filtering and order theorems. -/
def extractPt (f : Json) : Option Marker :=
  match f with
  | .obj fkvs => extractPtObj fkvs
  | _ => none

/-- The body of `featOk` on a feature that is a dictionary with entry list `fkvs`. -/
def featOkObj (fkvs : List (String × Json)) : Bool :=
  match (fkvs.lookup "geometry").getD (Json.obj []) with
  | .obj gkvs =>
    if typeIsPoint ((gkvs.lookup "type").getD Json.null) then
      match (gkvs.lookup "coordinates").getD (Json.arr []) with
      | .arr xs => decide (xs.length < 2) || isObjB (effProps fkvs)
      | c => !truthy c
    else true
  | _ => false

/-- Structural well-formedness of one feature entry, sufficient for the
marker loop to process it without raising: the feature is a dictionary,
its geometry is a dictionary (or absent), and — when the feature is a
Point that reaches the coordinate and label code — its coordinates value
is a list (or falsy) and its effective properties value a dictionary. -/
def featOk (f : Json) : Bool :=
  match f with
  | .obj fkvs => featOkObj fkvs
  | _ => false

/-- The body of `coordsOfFeat` on a feature that is a dictionary with entry list `fkvs`. -/
def coordsOfFeatObj (fkvs : List (String × Json)) : Option (Json × Json) :=
  match (fkvs.lookup "geometry").getD (Json.obj []) with
  | .obj gkvs =>
    if typeIsPoint ((gkvs.lookup "type").getD Json.null) then
      match (gkvs.lookup "coordinates").getD (Json.arr []) with
      | .arr (x :: y :: _) => some (x, y)
      | _ => none
    else none
  | _ => none

/-- The coordinate pair `(x, y) = (coordinates[0], coordinates[1])` a
feature offers to the marker loop, when its geometry is a Point
dictionary with a coordinate list of length at least two. -/
def coordsOfFeat (f : Json) : Option (Json × Json) :=
  match f with
  | .obj fkvs => coordsOfFeatObj fkvs
  | _ => none

/-- A GeoJSON Point geometry object with the given coordinate list. -/
def mkGeomPoint (cs : List Json) : Json :=
  Json.obj [("type", Json.str "Point"), ("coordinates", Json.arr cs)]

/-- A feature object with the given geometry and properties values. -/
def mkFeat (g p : Json) : Json :=
  Json.obj [("geometry", g), ("properties", p)]

/-- A feature object with the given geometry and no properties key. -/
def mkFeatNoProps (g : Json) : Json :=
  Json.obj [("geometry", g)]

/-- A FeatureCollection document with the given feature list. -/
def mkDoc (fs : List Json) : Json :=
  Json.obj [("features", Json.arr fs)]

/-- A property entry list holding the given optional string under the
given key. -/
def optProp (k : String) (v : Option String) : List (String × Json) :=
  match v with
  | some s => [(k, Json.str s)]
  | none => []

/-- A properties dictionary holding optional string values under the keys
`name`, `titel` and `title`. -/
def mkProps (nm t1 t2 : Option String) : Json :=
  Json.obj (optProp "name" nm ++ optProp "titel" t1 ++ optProp "title" t2)

/-- A concrete Point feature: a school at GeoJSON coordinates
`[13.405, 52.52]` named "Schule A". -/
def ptFeatBerlin : Json :=
  mkFeat (mkGeomPoint [Json.num 13.405, Json.num 52.52])
    (Json.obj [("name", Json.str "Schule A")])

/-- A concrete Polygon feature. -/
def polyFeat : Json :=
  mkFeat (Json.obj [("type", Json.str "Polygon"), ("coordinates", Json.arr [])]) Json.null

/-- A concrete feature whose `geometry` entry is JSON `null` — valid
GeoJSON (RFC 7946 allows a null geometry). -/
def geomNullFeat : Json := mkFeatNoProps Json.null

/-! ## Session-state lemmas -/

theorem clickHandler_frame (s : Session) (click : Option (ℚ × ℚ)) :
    ∀ k : String, k ≠ "center" → (clickHandler s click).1 k = s k := by
  intro k hk
  cases click with
  | none => rfl
  | some c => simp [clickHandler, Function.update, hk]

theorem ensureCenter_frame (s : Session) :
    ∀ k : String, k ≠ "center" → ensureCenter s k = s k := by
  intro k hk
  unfold ensureCenter
  split
  · rfl
  · simp [Function.update, hk]

theorem resetCenter_frame (s : Session) :
    ∀ k : String, k ≠ "center" → resetCenter s k = s k := by
  intro k hk
  simp [resetCenter, Function.update, hk]

/-- Every session the script can reach stores nothing outside the key
`"center"`: no pass ever writes any other key. -/
theorem reachable_only_center {s : Session} (h : Reachable s) :
    ∀ k : String, k ≠ "center" → s k = none := by
  induction h with
  | init => intro k _; rfl
  | step s p _ ih =>
    intro k hk
    show (clickHandler (ensureCenter (if p.resetClicked then resetCenter s else s)) p.click).1 k = none
    rw [clickHandler_frame _ _ k hk, ensureCenter_frame _ k hk]
    by_cases hr : p.resetClicked
    · simp only [hr, if_true]
      rw [resetCenter_frame _ k hk]
      exact ih k hk
    · simp only [hr, if_false]
      exact ih k hk

/-- Claim C1, counterexample.  The source keeps no `lastObservedClick` and
performs no rounding: after the click `(52.5000001, 13.4)` has been
processed (so the spec-side de-duplication key would equal the rounded
incoming click), a further click `(52.5000004, 13.4)` — equal to the
previous one after rounding to 6 fractional digits — still executes the
updating branch and changes the stored center, where the claim demands an
unchanged state and no re-render. -/
theorem c1_dedup_counterexample :
    specRound6 52.5000001 = specRound6 52.5000004 ∧
    specRound6 13.4 = specRound6 13.4 ∧
    (clickHandler ((clickHandler emptySession (some (52.5000001, 13.4))).1)
        (some (52.5000004, 13.4))).2 = true ∧
    (clickHandler ((clickHandler emptySession (some (52.5000001, 13.4))).1)
        (some (52.5000004, 13.4))).1 "center" ≠
      (clickHandler emptySession (some (52.5000001, 13.4))).1 "center" := by
  refine ⟨by norm_num [specRound6, round_eq], rfl, rfl, ?_⟩
  simp only [clickHandler, Function.update]
  norm_num

/-- Claim C1, amended: whenever the map widget reports a click, the handler
at src/app.py lines 161-164 unconditionally stores the exact (unrounded)
incoming click as the new center and executes its updating branch — there
is no rounding, no stored `lastObservedClick`, and no suppression of the
update for a repeated click; it touches no other session key, and when no
click is reported it does nothing. -/
theorem c1_click_unconditional (s : Session) (c : ℚ × ℚ) :
    (clickHandler s (some c)).1 "center" = some c ∧
    (clickHandler s (some c)).2 = true ∧
    (∀ k : String, k ≠ "center" → (clickHandler s (some c)).1 k = s k) ∧
    clickHandler s none = (s, false) := by
  refine ⟨?_, rfl, clickHandler_frame s (some c), rfl⟩
  simp [clickHandler, Function.update]

/-- Witness for `c1_click_unconditional` at a concrete session and click. -/
theorem c1_click_unconditional_witness :
    (clickHandler emptySession (some ((1 : ℚ), (2 : ℚ)))).1 "center" = some (1, 2) ∧
    (clickHandler emptySession (some ((1 : ℚ), (2 : ℚ)))).2 = true ∧
    (clickHandler emptySession (some ((1 : ℚ), (2 : ℚ)))).1 "zoom" = emptySession "zoom" ∧
    clickHandler emptySession none = (emptySession, false) :=
  ⟨(c1_click_unconditional emptySession (1, 2)).1,
   (c1_click_unconditional emptySession (1, 2)).2.1,
   (c1_click_unconditional emptySession (1, 2)).2.2.1 "zoom" (by decide),
   (c1_click_unconditional emptySession (1, 2)).2.2.2⟩

/-- Claim C9: from every reachable session, the reset handler stores the
fixed default center, leaves every other key untouched — in particular no
`lastObservedClick` is present afterwards, the script never stores one —
and the zone circle radius of any pass is the slider value times 1000,
which the reset handler cannot influence. -/
theorem c9_reset_frame (s : Session) (h : Reachable s) :
    resetCenter s "center" = some DEFAULT_CENTER ∧
    resetCenter s "lastObservedClick" = none ∧
    (∀ k : String, k ≠ "center" → resetCenter s k = s k) ∧
    (∀ p : PassInput, (runPass s p).circle.radius_m = p.radius_km * 1000) := by
  refine ⟨by simp [resetCenter, Function.update], ?_, resetCenter_frame s, fun p => rfl⟩
  rw [resetCenter_frame s "lastObservedClick" (by decide)]
  exact reachable_only_center h "lastObservedClick" (by decide)

/-- Witness for `c9_reset_frame` at the initial session. -/
theorem c9_reset_frame_witness :
    resetCenter emptySession "center" = some DEFAULT_CENTER ∧
    resetCenter emptySession "lastObservedClick" = none ∧
    resetCenter emptySession "zoom" = emptySession "zoom" ∧
    (runPass emptySession ⟨true, 3, none⟩).circle.radius_m = 3 * 1000 :=
  ⟨(c9_reset_frame emptySession Reachable.init).1,
   (c9_reset_frame emptySession Reachable.init).2.1,
   (c9_reset_frame emptySession Reachable.init).2.2.1 "zoom" (by decide),
   (c9_reset_frame emptySession Reachable.init).2.2.2 ⟨true, 3, none⟩⟩

/-! ## Marker-loop lemmas -/

theorem pickLabel_obj (kvs : List (String × Json)) :
    pickLabel (Json.obj kvs) = .ok (totalLabel (Json.obj kvs)) := by
  dsimp only [pickLabel, pyGet, totalLabel]
  split
  · rfl
  · split
    · rfl
    · rfl

/-- On a structurally well-formed feature the marker loop raises nothing
and computes exactly the total extraction `extractPt`. -/
theorem processFeature_eq_extractPt (f : Json) (h : featOk f = true) :
    processFeature f = .ok (extractPt f) := by
  cases f with
  | null => simp [featOk] at h
  | bool b => simp [featOk] at h
  | num q => simp [featOk] at h
  | str s => simp [featOk] at h
  | arr xs => simp [featOk] at h
  | obj fkvs =>
    simp only [featOk] at h
    simp only [extractPt]
    unfold featOkObj at h
    unfold processFeature extractPtObj
    dsimp only [pyGetD, pyGet]
    rcases hg : (fkvs.lookup "geometry").getD (Json.obj []) with _ | b | q | s | axs | gkvs <;>
      rw [hg] at h
    · simp at h
    · simp at h
    · simp at h
    · simp at h
    · simp at h
    · dsimp only at h ⊢
      by_cases ht : typeIsPoint ((gkvs.lookup "type").getD Json.null) = true
      · rw [if_pos ht] at h ⊢
        rw [if_pos ht]
        rcases hc : (gkvs.lookup "coordinates").getD (Json.arr []) with _ | cb | cq | cs | cxs | ckvs <;>
          rw [hc] at h
        · simp_all [truthy]
        · simp_all [truthy]
        · simp_all [truthy]
        · simp_all [truthy]
        · rcases cxs with _ | ⟨x, _ | ⟨y, rest⟩⟩
          · simp [truthy]
          · simp [truthy, pyLen]
          · dsimp only at h
            rw [List.length_cons, List.length_cons] at h
            rw [decide_eq_false (by omega : ¬ (rest.length + 1 + 1 < 2)), Bool.false_or] at h
            rw [if_pos (show truthy (Json.arr (x :: y :: rest)) = true from rfl)]
            dsimp only [pyLen]
            rw [if_neg (show ¬ ((x :: y :: rest).length < 2) by simp)]
            dsimp only [pyIndex]
            simp only [List.getElem?_cons_zero, List.getElem?_cons_succ]
            rw [show (if truthy ((fkvs.lookup "properties").getD (Json.obj [])) = true
              then (fkvs.lookup "properties").getD (Json.obj []) else Json.obj []) =
              effProps fkvs from rfl]
            rcases he : effProps fkvs with _ | eb | eq' | es | exs | pkvs <;> rw [he] at h <;>
              simp [isObjB] at h
            rw [pickLabel_obj]
        · simp_all [truthy]
      · rw [if_neg ht] at h ⊢
        rw [if_neg ht]

/-- The feature loop on a list of well-formed features collects, in source
order, exactly the markers of the extractable Point features. -/
theorem processFeats_eq (fs : List Json) (h : ∀ f ∈ fs, featOk f = true) :
    processFeats fs = .ok (fs.filterMap extractPt) := by
  induction fs with
  | nil => rfl
  | cons f fs ih =>
    have hf := h f (by simp)
    have ih' := ih (fun g hg => h g (by simp [hg]))
    dsimp only [processFeats]
    rw [processFeature_eq_extractPt f hf, ih']
    cases hx : extractPt f <;> simp [List.filterMap_cons, hx]

/-- Running `add_geojson_markers` on a FeatureCollection of well-formed features:
the extracted markers, in source order. -/
theorem markers_mkDoc_eq (fs : List Json) (h : ∀ f ∈ fs, featOk f = true) :
    add_geojson_markers (mkDoc fs) = .ok (fs.filterMap extractPt) := by
  dsimp only [add_geojson_markers, mkDoc, pyGetD, pyIter]
  exact processFeats_eq fs h

/-- A marker extracted from a feature carries exactly the feature's first
two coordinate entries, longitude first. -/
theorem extractPt_coords (f : Json) (m : Marker) (h : extractPt f = some m) :
    coordsOfFeat f = some (m.lon, m.lat) := by
  cases f with
  | null => simp [extractPt] at h
  | bool b => simp [extractPt] at h
  | num q => simp [extractPt] at h
  | str s => simp [extractPt] at h
  | arr xs => simp [extractPt] at h
  | obj fkvs =>
    simp only [extractPt] at h
    simp only [coordsOfFeat]
    unfold extractPtObj at h
    unfold coordsOfFeatObj
    rcases hg : (fkvs.lookup "geometry").getD (Json.obj []) with _ | b | q | s | axs | gkvs <;>
      rw [hg] at h
    · cases h
    · cases h
    · cases h
    · cases h
    · cases h
    · dsimp only at h ⊢
      by_cases ht : typeIsPoint ((gkvs.lookup "type").getD Json.null) = true
      · rw [if_pos ht] at h ⊢
        rcases hc : (gkvs.lookup "coordinates").getD (Json.arr []) with _ | cb | cq | cs | cxs | ckvs <;>
          rw [hc] at h
        · cases h
        · cases h
        · cases h
        · cases h
        · rcases cxs with _ | ⟨x, _ | ⟨y, rest⟩⟩
          · cases h
          · cases h
          · dsimp only at h ⊢
            cases h
            rfl
        · cases h
      · rw [if_neg ht] at h
        cases h

/-! ## Label lemmas -/

theorem processFeature_point (x y props : Json) :
    processFeature (mkFeat (mkGeomPoint [x, y]) props) =
      match pickLabel (if truthy props = true then props else Json.obj []) with
      | .error e => .error e
      | .ok lbl => .ok (some ⟨y, x, lbl⟩) := rfl

theorem processFeatureFB_point (x y props : Json) :
    processFeatureFB (mkFeat (mkGeomPoint [x, y]) props) =
      match pickLabelFB (if truthy props = true then props else Json.obj []) with
      | .error e => .error e
      | .ok lbl => .ok (some ⟨y, x, lbl⟩) := rfl

theorem pickLabelFB_obj (kvs : List (String × Json)) :
    pickLabelFB (Json.obj kvs) =
      .ok (if truthy ((kvs.lookup "name").getD Json.null) = true
           then (kvs.lookup "name").getD Json.null else Json.str "") := rfl

theorem totalLabel_mkProps (nm t1 t2 : Option String) :
    totalLabel (mkProps nm t1 t2) = Json.str (specLabel nm t1 t2) := by
  rcases nm with _ | n <;> rcases t1 with _ | t <;> rcases t2 with _ | u
  · rfl
  · by_cases hu : u = "" <;>
      simp [mkProps, optProp, totalLabel, specLabel, pickStr, truthy, List.lookup, hu]
  · by_cases ht : t = "" <;>
      simp [mkProps, optProp, totalLabel, specLabel, pickStr, truthy, List.lookup, ht]
  · by_cases ht : t = "" <;> by_cases hu : u = "" <;>
      simp [mkProps, optProp, totalLabel, specLabel, pickStr, truthy, List.lookup, ht, hu]
  · by_cases hn : n = "" <;>
      simp [mkProps, optProp, totalLabel, specLabel, pickStr, truthy, List.lookup, hn]
  · by_cases hn : n = "" <;> by_cases hu : u = "" <;>
      simp [mkProps, optProp, totalLabel, specLabel, pickStr, truthy, List.lookup, hn, hu]
  · by_cases hn : n = "" <;> by_cases ht : t = "" <;>
      simp [mkProps, optProp, totalLabel, specLabel, pickStr, truthy, List.lookup, hn, ht]
  · by_cases hn : n = "" <;> by_cases ht : t = "" <;> by_cases hu : u = "" <;>
      simp [mkProps, optProp, totalLabel, specLabel, pickStr, truthy, List.lookup, hn, ht, hu]

theorem pickLabel_effProps_mkProps (nm t1 t2 : Option String) :
    pickLabel (if truthy (mkProps nm t1 t2) = true then mkProps nm t1 t2 else Json.obj []) =
      .ok (Json.str (specLabel nm t1 t2)) := by
  by_cases h : truthy (mkProps nm t1 t2) = true
  · rw [if_pos h]
    have h2 := totalLabel_mkProps nm t1 t2
    simp only [mkProps] at h2 ⊢
    rw [pickLabel_obj, h2]
  · rw [if_neg h]
    rcases nm with _ | n <;> rcases t1 with _ | t <;> rcases t2 with _ | u <;>
      first
      | rfl
      | exact absurd rfl h

theorem pickLabelFB_effProps_mkProps (nm t1 t2 : Option String) :
    pickLabelFB (if truthy (mkProps nm t1 t2) = true then mkProps nm t1 t2 else Json.obj []) =
      .ok (Json.str (pickStr nm "")) := by
  by_cases h : truthy (mkProps nm t1 t2) = true
  · rw [if_pos h]
    rcases nm with _ | n
    · rcases t1 with _ | t <;> rcases t2 with _ | u <;>
        first
        | exact absurd rfl h
        | rfl
    · by_cases hn : n = "" <;>
        simp [mkProps, optProp, pickLabelFB, pyGet, truthy, pickStr, List.lookup, hn]
  · rw [if_neg h]
    rcases nm with _ | n <;> rcases t1 with _ | t <;> rcases t2 with _ | u <;>
      first
      | rfl
      | exact absurd rfl h

/-- Claim C2: the loader swaps GeoJSON `[x, y] = [longitude, latitude]`
order — for a Point feature with coordinates `[x, y]` the marker has
latitude `y` and longitude `x`, in the main path, in the no-icon fallback
path, for a feature without properties, and in particular coordinates
`[13.405, 52.52]` yield latitude `52.52` and longitude `13.405`. -/
theorem c2_coordinate_order :
    (∀ (x y : Json) (kvs : List (String × Json)), ∃ lbl : Json,
        processFeature (mkFeat (mkGeomPoint [x, y]) (Json.obj kvs)) =
          .ok (some ⟨y, x, lbl⟩)) ∧
    (∀ (x y : Json) (kvs : List (String × Json)), ∃ lbl : Json,
        processFeatureFB (mkFeat (mkGeomPoint [x, y]) (Json.obj kvs)) =
          .ok (some ⟨y, x, lbl⟩)) ∧
    (∀ x y : Json,
        processFeature (mkFeatNoProps (mkGeomPoint [x, y])) =
          .ok (some ⟨y, x, Json.str ""⟩)) ∧
    processFeature (mkFeat (mkGeomPoint [Json.num 13.405, Json.num 52.52]) Json.null) =
      .ok (some ⟨Json.num 52.52, Json.num 13.405, Json.str ""⟩) := by
  refine ⟨?_, ?_, fun x y => rfl, rfl⟩
  · intro x y kvs
    rw [processFeature_point]
    by_cases htr : truthy (Json.obj kvs) = true
    · rw [if_pos htr, pickLabel_obj]
      exact ⟨_, rfl⟩
    · rw [if_neg htr, pickLabel_obj]
      exact ⟨_, rfl⟩
  · intro x y kvs
    rw [processFeatureFB_point]
    by_cases htr : truthy (Json.obj kvs) = true
    · rw [if_pos htr, pickLabelFB_obj]
      exact ⟨_, rfl⟩
    · rw [if_neg htr, pickLabelFB_obj]
      exact ⟨_, rfl⟩

/-- Claim C10: a Point feature whose `properties` entry is absent, or is
JSON `null`, is still processed — the `or {}` at src/app.py line 61 turns
the falsy value into an empty dictionary — and yields a marker with the
empty-string label, without raising. -/
theorem c10_absent_or_null_properties (x y : Json) :
    processFeature (mkFeat (mkGeomPoint [x, y]) Json.null) =
      .ok (some ⟨y, x, Json.str ""⟩) ∧
    processFeature (mkFeatNoProps (mkGeomPoint [x, y])) =
      .ok (some ⟨y, x, Json.str ""⟩) ∧
    processFeatureFB (mkFeat (mkGeomPoint [x, y]) Json.null) =
      .ok (some ⟨y, x, Json.str ""⟩) :=
  ⟨rfl, rfl, rfl⟩

/-- Claim C5, counterexample.  The claim's label policy is stated for
every Point feature and is sourced at both src/app.py line 72 and line
124; in the no-icon fallback loop (line 124) the label is
`props.get("name") or ""`, so a feature with `titel: "A"`, `title: "B"`
and no `name` yields label `""`, not the `"A"` the claim requires. -/
theorem c5_label_counterexample :
    processFeatureFB (mkFeat (mkGeomPoint [Json.num 13.405, Json.num 52.52])
        (mkProps none (some "A") (some "B"))) =
      .ok (some ⟨Json.num 52.52, Json.num 13.405, Json.str ""⟩) ∧
    specLabel none (some "A") (some "B") = "A" ∧
    Json.str "" ≠ Json.str "A" :=
  ⟨rfl, rfl, by simp⟩

/-- Claim C5, amended: in the main (icon) path the label is the first
present non-empty value among the property keys `name`, `titel`, `title`,
in that order, and `""` when none is present; in the no-icon fallback
path only `name` is consulted — the label is a present non-empty `name`
or `""`. -/
theorem c5_label_fallback_order :
    (∀ (x y : Json) (nm t1 t2 : Option String),
        processFeature (mkFeat (mkGeomPoint [x, y]) (mkProps nm t1 t2)) =
          .ok (some ⟨y, x, Json.str (specLabel nm t1 t2)⟩)) ∧
    (∀ (x y : Json) (nm t1 t2 : Option String),
        processFeatureFB (mkFeat (mkGeomPoint [x, y]) (mkProps nm t1 t2)) =
          .ok (some ⟨y, x, Json.str (pickStr nm "")⟩)) := by
  constructor
  · intro x y nm t1 t2
    rw [processFeature_point, pickLabel_effProps_mkProps]
  · intro x y nm t1 t2
    rw [processFeatureFB_point, pickLabelFB_effProps_mkProps]

/-- Claim C6, counterexample.  A FeatureCollection holding one Point
feature and one feature with `geometry: null` (valid GeoJSON) does not
yield the Point marker with the null-geometry feature silently skipped:
`geom.get("type")` on `None` raises an uncaught `AttributeError`, so the
loader produces no marker list at all. -/
theorem c6_geom_null_counterexample :
    add_geojson_markers (mkDoc [ptFeatBerlin, geomNullFeat]) = .error .attributeError ∧
    (Except.error PyErr.attributeError : Except PyErr (List Marker)) ≠
      .ok [⟨Json.num 52.52, Json.num 13.405, Json.str "Schule A"⟩] :=
  ⟨rfl, fun h => Except.noConfusion h⟩

/-- Claim C6, amended: on a FeatureCollection whose features are
structurally well formed (each feature a dictionary, geometry absent or a
dictionary, coordinates absent, falsy or a list, effective properties a
dictionary), the loader yields exactly the extracted Point markers in
source order; features whose geometry type is not exactly `"Point"`, and
Point features whose coordinate list has fewer than two entries, are
silently skipped.  A feature whose geometry is `null` (or any other
non-dictionary value) instead raises an uncaught `AttributeError`. -/
theorem c6_point_filtering :
    (∀ fs : List Json, (∀ f ∈ fs, featOk f = true) →
        add_geojson_markers (mkDoc fs) = .ok (fs.filterMap extractPt)) ∧
    (∀ fkvs gkvs : List (String × Json),
        (fkvs.lookup "geometry").getD (Json.obj []) = Json.obj gkvs →
        typeIsPoint ((gkvs.lookup "type").getD Json.null) = false →
        extractPt (Json.obj fkvs) = none) ∧
    (∀ (fkvs gkvs : List (String × Json)) (xs : List Json),
        (fkvs.lookup "geometry").getD (Json.obj []) = Json.obj gkvs →
        (gkvs.lookup "coordinates").getD (Json.arr []) = Json.arr xs →
        xs.length < 2 →
        extractPt (Json.obj fkvs) = none) := by
  refine ⟨markers_mkDoc_eq, ?_, ?_⟩
  · intro fkvs gkvs hg ht
    simp only [extractPt, extractPtObj]
    rw [hg]
    dsimp only
    rw [ht]
    simp
  · intro fkvs gkvs xs hg hc hlen
    simp only [extractPt, extractPtObj]
    rw [hg]
    dsimp only
    by_cases ht : typeIsPoint ((gkvs.lookup "type").getD Json.null) = true
    · rw [if_pos ht, hc]
      rcases xs with _ | ⟨x, _ | ⟨y, rest⟩⟩
      · rfl
      · rfl
      · simp at hlen
        omega
    · rw [if_neg ht]

/-- Witness for `c6_point_filtering`: one Point and one Polygon feature
yield exactly one marker. -/
theorem c6_point_filtering_witness :
    featOk ptFeatBerlin = true ∧ featOk polyFeat = true ∧
    add_geojson_markers (mkDoc [ptFeatBerlin, polyFeat]) =
      .ok [⟨Json.num 52.52, Json.num 13.405, Json.str "Schule A"⟩] :=
  ⟨rfl, rfl,
    (c6_point_filtering.1 [ptFeatBerlin, polyFeat] (by decide)).trans rfl⟩

/-- Claim C3, counterexample.  The loader performs no range validation: a
Point feature with coordinates `[200, 100]` yields a marker with latitude
`100 ∉ [-90, 90]` and longitude `200 ∉ [-180, 180]`. -/
theorem c3_range_counterexample :
    add_geojson_markers (mkDoc [mkFeatNoProps (mkGeomPoint [Json.num 200, Json.num 100])]) =
      .ok [⟨Json.num 100, Json.num 200, Json.str ""⟩] ∧
    ¬ ((100 : ℚ) ≤ 90) ∧ ¬ ((200 : ℚ) ≤ 180) :=
  ⟨rfl, by norm_num, by norm_num⟩

/-- Claim C3, amended: each produced marker carries, verbatim, its source
feature's first two coordinate entries (longitude first) — the loader
validates nothing, so the latitude/longitude range invariant holds
exactly when the source data satisfies it. -/
theorem c3_coords_verbatim (fs : List Json) (ms : List Marker)
    (h : ∀ f ∈ fs, featOk f = true)
    (hok : add_geojson_markers (mkDoc fs) = .ok ms) :
    ∀ m ∈ ms, ∃ f ∈ fs, coordsOfFeat f = some (m.lon, m.lat) := by
  rw [markers_mkDoc_eq fs h] at hok
  injection hok with hok
  intro m hm
  rw [← hok] at hm
  rcases List.mem_filterMap.mp hm with ⟨f, hf, hext⟩
  exact ⟨f, hf, extractPt_coords f m hext⟩

/-- Witness for `c3_coords_verbatim` at the out-of-range feature. -/
theorem c3_coords_verbatim_witness :
    coordsOfFeat (mkFeatNoProps (mkGeomPoint [Json.num 200, Json.num 100])) =
      some (Json.num 200, Json.num 100) := by
  obtain ⟨f, hf, hc⟩ :=
    c3_coords_verbatim [mkFeatNoProps (mkGeomPoint [Json.num 200, Json.num 100])]
      [⟨Json.num 100, Json.num 200, Json.str ""⟩]
      (by decide)
      rfl
      ⟨Json.num 100, Json.num 200, Json.str ""⟩ (by simp)
  rw [List.mem_singleton] at hf
  subst hf
  exact hc

/-- Claim C4, counterexample.  `geojson_obj.get("features", [])` treats
only a missing key as empty: a document `{"features": null}` raises an
uncaught `TypeError` when the loop iterates `None`, and a non-dictionary
document such as `5` raises an uncaught `AttributeError` — neither is an
empty layer with no error. -/
theorem c4_features_counterexample :
    add_geojson_markers (Json.obj [("features", Json.null)]) = .error .typeError ∧
    add_geojson_markers (Json.num 5) = .error .attributeError ∧
    (Except.error PyErr.typeError : Except PyErr (List Marker)) ≠ .ok [] :=
  ⟨rfl, rfl, fun h => Except.noConfusion h⟩

/-- Claim C4, amended: for a parsed document that is a dictionary, a
missing `features` key is treated as an empty feature list — both marker
paths produce an empty layer with no error.  (A present non-list
`features` value, or a non-dictionary document, instead raises.) -/
theorem c4_missing_features_empty (kvs : List (String × Json))
    (h : kvs.lookup "features" = none) :
    add_geojson_markers (Json.obj kvs) = .ok [] ∧
    fallback_markers (Json.obj kvs) = .ok [] := by
  constructor
  · unfold add_geojson_markers
    dsimp only [pyGetD]
    rw [h]
    rfl
  · unfold fallback_markers
    dsimp only [pyGetD]
    rw [h]
    rfl

/-- Witness for `c4_missing_features_empty` at the empty document. -/
theorem c4_missing_features_empty_witness :
    add_geojson_markers (Json.obj []) = .ok [] ∧
    fallback_markers (Json.obj []) = .ok [] :=
  c4_missing_features_empty [] rfl

/-- Claim C7: a source that cannot be located loads as `(None, not-found
error)`, a source whose bytes do not parse loads as `(None, parse
error)` — the exception is caught inside `load_geojson` — and in either
case the layer loop records the warning and produces no layer for it,
without raising. -/
theorem c7_load_error_handling (e : String) (icon : Bool) (layer_name : String) :
    load_geojson (Source.present (.error e)) = (Json.null, some (.parseError e)) ∧
    load_geojson Source.missing = (Json.null, some .notFound) ∧
    buildLayers icon [(layer_name, Source.present (.error e))] =
      .ok ([(layer_name, .parseError e)], []) ∧
    buildLayers icon [(layer_name, Source.missing)] =
      .ok ([(layer_name, .notFound)], []) :=
  ⟨rfl, rfl, rfl, rfl⟩

/-! ## Layer-loop lemmas -/

theorem buildLayers_ok (icon : Bool) (specsL : List (String × Source))
    (h : ∀ p ∈ specsL, ∀ j : Json, p.2 = Source.present (.ok j) →
        ∃ ms, (if icon then add_geojson_markers j else fallback_markers j) = .ok ms) :
    ∃ ws ls, buildLayers icon specsL = .ok (ws, ls) ∧
      ws = specsL.filterMap
        (fun p => ((load_geojson p.2).2).map (fun er => (p.1, er))) ∧
      ls.map Prod.fst =
        ((specsL.filter (fun p => ((load_geojson p.2).2).isNone)).map Prod.fst) := by
  induction specsL with
  | nil => exact ⟨[], [], rfl, rfl, rfl⟩
  | cons p rest ih =>
    obtain ⟨ws, ls, hbl, hws, hls⟩ := ih (fun q hq => h q (by simp [hq]))
    obtain ⟨n, src⟩ := p
    rcases src with _ | r
    · refine ⟨(n, .notFound) :: ws, ls, ?_, ?_, ?_⟩
      · dsimp only [buildLayers, load_geojson]
        rw [hbl]
      · simp [load_geojson, List.filterMap_cons, hws]
      · simp [load_geojson, List.filter_cons, hls]
    · rcases r with e | j
      · refine ⟨(n, .parseError e) :: ws, ls, ?_, ?_, ?_⟩
        · dsimp only [buildLayers, load_geojson]
          rw [hbl]
        · simp [load_geojson, List.filterMap_cons, hws]
        · simp [load_geojson, List.filter_cons, hls]
      · obtain ⟨ms, hms⟩ := h (n, .present (.ok j)) (by simp) j rfl
        refine ⟨ws, (n, ms) :: ls, ?_, ?_, ?_⟩
        · dsimp only [buildLayers, load_geojson]
          rw [hms, hbl]
        · simp [load_geojson, List.filterMap_cons, hws]
        · simp [load_geojson, List.filter_cons, hls]

/-- Claim C8, counterexample.  In the configuration with layer "A" whose
source is missing and layer "B" whose source parses to
`{"features": null}`, the loop's marker extraction for "B" raises an
uncaught `TypeError`, aborting the whole render pass: the zone circle is
not drawn even though "A" failed merely by being missing. -/
theorem c8_fatal_counterexample :
    renderPass true
        [("A", Source.missing),
         ("B", Source.present (.ok (Json.obj [("features", Json.null)])))]
        DEFAULT_CENTER 3 = .error .typeError ∧
    (renderPass true
        [("A", Source.missing),
         ("B", Source.present (.ok (Json.obj [("features", Json.null)])))]
        DEFAULT_CENTER 3).isOk = false :=
  ⟨rfl, rfl⟩

/-- Claim C8, amended: a layer whose source is missing or unparseable is
recorded as a warning and omitted from the layer list while the zone
circle and the other layers are still rendered, provided every layer
whose source does load has a marker extraction that raises no exception;
an extraction exception instead aborts the whole pass, circle included. -/
theorem c8_per_layer_nonfatal (icon : Bool) (specsL : List (String × Source))
    (center : ℚ × ℚ) (radius_km : ℤ)
    (h : ∀ p ∈ specsL, ∀ j : Json, p.2 = Source.present (.ok j) →
        ∃ ms, (if icon then add_geojson_markers j else fallback_markers j) = .ok ms) :
    ∃ r : Rendered, renderPass icon specsL center radius_km = .ok r ∧
      r.circle = ⟨center, radius_km * 1000⟩ ∧
      r.warnings = specsL.filterMap
        (fun p => ((load_geojson p.2).2).map (fun er => (p.1, er))) ∧
      r.layers.map Prod.fst =
        ((specsL.filter (fun p => ((load_geojson p.2).2).isNone)).map Prod.fst) := by
  obtain ⟨ws, ls, hbl, hws, hls⟩ := buildLayers_ok icon specsL h
  refine ⟨⟨ws, ls, ⟨center, radius_km * 1000⟩⟩, ?_, rfl, hws, hls⟩
  unfold renderPass
  rw [hbl]

/-- Witness for `c8_per_layer_nonfatal`: a missing layer "A" next to a
loadable empty layer "S" still renders successfully. -/
theorem c8_per_layer_nonfatal_witness :
    (renderPass true [("A", Source.missing), ("S", Source.present (.ok (mkDoc [])))]
      DEFAULT_CENTER 3).isOk = true := by
  obtain ⟨r, h1, -, -, -⟩ :=
    c8_per_layer_nonfatal true
      [("A", Source.missing), ("S", Source.present (.ok (mkDoc [])))] DEFAULT_CENTER 3
      (by
        intro p hp j hj
        simp only [List.mem_cons, List.not_mem_nil, or_false] at hp
        rcases hp with rfl | rfl
        · cases hj
        · injection hj with hj'
          injection hj' with hj''
          subst hj''
          exact ⟨[], rfl⟩)
  rw [h1]
  rfl
